import Mathlib

/-
Verification of the Best-Script-to-Video React client against its
natural-language specification.

The client state and handlers are shallowly embedded:
JavaScript objects used as string-keyed maps become insertion-ordered
association lists (matching JS property order: an existing key keeps
its position when overwritten, a new key is appended); JS numbers are
modelled as rationals; fetch outcomes are modelled as explicit outcome
values fed to the response-handling code; React `useState` setters
become explicit state passing.
-/

/-- JSON-like values as manipulated by the client (JS numbers as rationals). -/
inductive JVal where
  | num (q : Rat)
  | str (s : String)
  | arr (xs : List JVal)
  | obj (fields : List (String × JVal))

/-- Sub-map of one edit category: parameter name to value. -/
abbrev SubMap := List (String × JVal)

/-- The edit configuration: category name to sub-map (see spec section 3). -/
abbrev EditConfig := List (String × SubMap)

/-- JS property read `m[k]` on an object modelled as an ordered assoc list. -/
def getKey {α : Type} : List (String × α) → String → Option α
  | [], _ => none
  | (k0, v) :: rest, k => if k0 = k then some v else getKey rest k

/-- JS update `{...m, [k]: v}`: an existing key is overwritten in place,
a missing key is appended at the end. -/
def setKey {α : Type} : List (String × α) → String → α → List (String × α)
  | [], k, v => [(k, v)]
  | (k0, v0) :: rest, k, v =>
      if k0 = k then (k, v) :: rest else (k0, v0) :: setKey rest k v

/-- `prev[section]` with the JS spread-of-undefined convention:
an absent category reads as the empty object. -/
def subMap (cfg : EditConfig) (sect : String) : SubMap :=
  (getKey cfg sect).getD []

/-- `updateEditConfig` from src/VideoEditor.jsx lines 41-49:
`setEditConfig(prev => ({...prev, [section]: {...prev[section], [key]: value}}))`. -/
def updateEditConfig (cfg : EditConfig) (sect key : String) (value : JVal) : EditConfig :=
  setKey cfg sect (setKey (subMap cfg sect) key value)

theorem getKey_setKey_self {α : Type} (m : List (String × α)) (k : String) (v : α) :
    getKey (setKey m k v) k = some v := by
  induction m with
  | nil => simp [setKey, getKey]
  | cons hd tl ih =>
      obtain ⟨k0, v0⟩ := hd
      by_cases h : k0 = k
      · simp [setKey, getKey, h]
      · simp [setKey, getKey, h, ih]

theorem getKey_setKey_ne {α : Type} (m : List (String × α)) (k k2 : String) (v : α)
    (h : k2 ≠ k) : getKey (setKey m k v) k2 = getKey m k2 := by
  induction m with
  | nil => simp [setKey, getKey, Ne.symm h]
  | cons hd tl ih =>
      obtain ⟨k0, v0⟩ := hd
      by_cases h0 : k0 = k
      · subst h0
        simp [setKey, getKey, Ne.symm h]
      · simp [setKey, getKey, h0, ih]

theorem setKey_setKey {α : Type} (m : List (String × α)) (k : String) (a b : α) :
    setKey (setKey m k a) k b = setKey m k b := by
  induction m with
  | nil => simp [setKey]
  | cons hd tl ih =>
      obtain ⟨k0, v0⟩ := hd
      by_cases h : k0 = k
      · simp [setKey, h]
      · simp [setKey, h, ih]

theorem subMap_updateEditConfig_self (cfg : EditConfig) (s k : String) (v : JVal) :
    subMap (updateEditConfig cfg s k v) s = setKey (subMap cfg s) k v := by
  simp [updateEditConfig, subMap, getKey_setKey_self]

/-- C3: `set(section, key, value)` leaves every other category's sub-map
unchanged, and sets the named category's sub-map to the previous sub-map
with `key` overwritten to `value`, every other key of that sub-map kept;
the value `v` is arbitrary (no range validation), e.g. a negative trim
time is stored as-is. -/
theorem updateEditConfig_set_spec (cfg : EditConfig) (s k : String) (v : JVal)
    (t k2 : String) (ht : t ≠ s) (hk : k2 ≠ k) :
    getKey (updateEditConfig cfg s k v) t = getKey cfg t ∧
    subMap (updateEditConfig cfg s k v) s = setKey (subMap cfg s) k v ∧
    getKey (subMap (updateEditConfig cfg s k v) s) k = some v ∧
    getKey (subMap (updateEditConfig cfg s k v) s) k2 = getKey (subMap cfg s) k2 := by
  refine ⟨?_, subMap_updateEditConfig_self cfg s k v, ?_, ?_⟩
  · simp [updateEditConfig, getKey_setKey_ne _ _ _ _ ht]
  · rw [subMap_updateEditConfig_self]
    exact getKey_setKey_self _ _ _
  · rw [subMap_updateEditConfig_self]
    exact getKey_setKey_ne _ _ _ _ hk

theorem updateEditConfig_set_spec_witness :
    ("resize" : String) ≠ "trim" ∧ ("end" : String) ≠ "start" ∧
    (getKey (updateEditConfig [] "trim" "start" (JVal.num (-5))) "resize" =
        getKey ([] : EditConfig) "resize" ∧
      subMap (updateEditConfig [] "trim" "start" (JVal.num (-5))) "trim" =
        setKey (subMap [] "trim") "start" (JVal.num (-5)) ∧
      getKey (subMap (updateEditConfig [] "trim" "start" (JVal.num (-5))) "trim") "start" =
        some (JVal.num (-5)) ∧
      getKey (subMap (updateEditConfig [] "trim" "start" (JVal.num (-5))) "trim") "end" =
        getKey (subMap [] "trim") "end") :=
  ⟨by decide, by decide,
    updateEditConfig_set_spec [] "trim" "start" (JVal.num (-5)) "resize" "end"
      (by decide) (by decide)⟩

/-- C4: `set` is idempotent (repeating the identical call is a no-op, as
literal state equality), and across distinct categories the two orders of
two `set` calls yield the same final map: every category reads to the same
sub-map (the spec's data model, section 3, is the mapping itself; insertion
order of the category keys is the only difference between the two orders). -/
theorem updateEditConfig_idem_comm (cfg : EditConfig) (s k : String) (v : JVal)
    (s1 s2 k1 k2 : String) (v1 v2 : JVal) (h : s1 ≠ s2) (t : String) :
    updateEditConfig (updateEditConfig cfg s k v) s k v = updateEditConfig cfg s k v ∧
    getKey (updateEditConfig (updateEditConfig cfg s1 k1 v1) s2 k2 v2) t =
      getKey (updateEditConfig (updateEditConfig cfg s2 k2 v2) s1 k1 v1) t := by
  constructor
  · simp [updateEditConfig, subMap, getKey_setKey_self, setKey_setKey]
  · by_cases ht1 : t = s1
    · subst ht1
      simp [updateEditConfig, subMap, getKey_setKey_self,
        getKey_setKey_ne _ _ _ _ h]
    · by_cases ht2 : t = s2
      · subst ht2
        simp [updateEditConfig, subMap, getKey_setKey_self,
          getKey_setKey_ne _ _ _ _ (Ne.symm h)]
      · simp [updateEditConfig,
          getKey_setKey_ne _ _ _ _ ht1, getKey_setKey_ne _ _ _ _ ht2]

theorem updateEditConfig_idem_comm_witness :
    ("trim" : String) ≠ "resize" ∧
    (updateEditConfig (updateEditConfig [] "volume" "factor" (JVal.num 2))
        "volume" "factor" (JVal.num 2) =
      updateEditConfig [] "volume" "factor" (JVal.num 2) ∧
    getKey (updateEditConfig (updateEditConfig [] "trim" "start" (JVal.num 0))
        "resize" "width" (JVal.num 1920)) "trim" =
      getKey (updateEditConfig (updateEditConfig [] "resize" "width" (JVal.num 1920))
        "trim" "start" (JVal.num 0)) "trim") :=
  ⟨by decide,
    updateEditConfig_idem_comm [] "volume" "factor" (JVal.num 2)
      "trim" "resize" "start" "width" (JVal.num 0) (JVal.num 1920) (by decide) "trim"⟩

/-- Encoding of the edit configuration as the JSON value
`JSON.stringify` serializes (category objects in insertion order). -/
def encodeConfig (cfg : EditConfig) : JVal :=
  JVal.obj (cfg.map (fun p => (p.1, JVal.obj p.2)))

/-- JS `x || d` on an optional string: `null`, `undefined` and the empty
string are falsy and fall back to the default. -/
def jsOr (v : Option String) (dflt : String) : String :=
  match v with
  | some s => if s = "" then dflt else s
  | none => dflt

/-- Request formed by `saveEdits` (src/VideoEditor.jsx lines 66-84): the
guard `if (!videoPath)` blocks null and empty paths; otherwise a POST to
`/api/editor/edit` with body `{video_path, edit_config}` is issued. -/
def saveEditsRequest (videoPath : Option String) (cfg : EditConfig) :
    Option (String × JVal) :=
  match videoPath with
  | none => none
  | some p =>
      if p = "" then none
      else some ("/api/editor/edit",
        JVal.obj [("video_path", JVal.str p), ("edit_config", encodeConfig cfg)])

/-- C1: building the configuration by set trim.start=0, trim.end=10,
resize.width=1920, resize.height=1080 from the empty configuration and
submitting with a (non-empty, hence truthy) target path p POSTs exactly
the body given in the spec's example. -/
theorem saveEdits_example_body (p : String) (hp : p ≠ "") :
    saveEditsRequest (some p)
      (updateEditConfig (updateEditConfig (updateEditConfig (updateEditConfig []
        "trim" "start" (JVal.num 0)) "trim" "end" (JVal.num 10))
        "resize" "width" (JVal.num 1920)) "resize" "height" (JVal.num 1080)) =
    some ("/api/editor/edit", JVal.obj
      [("video_path", JVal.str p),
       ("edit_config", JVal.obj
         [("trim", JVal.obj [("start", JVal.num 0), ("end", JVal.num 10)]),
          ("resize", JVal.obj [("width", JVal.num 1920), ("height", JVal.num 1080)])])]) := by
  simp only [saveEditsRequest, if_neg hp]
  rfl

theorem saveEdits_example_body_witness :
    ("/videos/out.mp4" : String) ≠ "" ∧
    saveEditsRequest (some "/videos/out.mp4")
      (updateEditConfig (updateEditConfig (updateEditConfig (updateEditConfig []
        "trim" "start" (JVal.num 0)) "trim" "end" (JVal.num 10))
        "resize" "width" (JVal.num 1920)) "resize" "height" (JVal.num 1080)) =
    some ("/api/editor/edit", JVal.obj
      [("video_path", JVal.str "/videos/out.mp4"),
       ("edit_config", JVal.obj
         [("trim", JVal.obj [("start", JVal.num 0), ("end", JVal.num 10)]),
          ("resize", JVal.obj [("width", JVal.num 1920), ("height", JVal.num 1080)])])]) :=
  ⟨by decide, saveEdits_example_body "/videos/out.mp4" (by decide)⟩

/-- A preset as returned by `GET /api/editor/presets`. -/
structure Preset where
  name : String
  description : String
  config : EditConfig

/-- Local state of the VideoEditor component (src/VideoEditor.jsx lines 14-16). -/
structure EditorState where
  editConfig : EditConfig
  selectedPreset : String
  isEditing : Bool

/-- `applyPreset` from src/VideoEditor.jsx lines 51-64: look the key up in
the fetched preset map; when present, replace the whole edit configuration
with the preset's config and record the selected key; otherwise no change. -/
def applyPreset (fetchedPresets : List (String × Preset)) (presetKey : String)
    (st : EditorState) : EditorState :=
  match getKey fetchedPresets presetKey with
  | some preset => { st with editConfig := preset.config, selectedPreset := presetKey }
  | none => st

/-- C2: when the preset exists in the fetched map, `apply(presetKey)` sets
the edit configuration to exactly the preset's config, for every prior
configuration — full replacement, never a merge. -/
theorem applyPreset_replaces (fetchedPresets : List (String × Preset))
    (presetKey : String) (st : EditorState) (preset : Preset)
    (h : getKey fetchedPresets presetKey = some preset) :
    (applyPreset fetchedPresets presetKey st).editConfig = preset.config := by
  simp [applyPreset, h]

theorem applyPreset_replaces_witness :
    getKey [("cinematic", Preset.mk "Cinematic" "Cinematic style with fades"
        [("fade_in", [("duration", JVal.num 1)])])] "cinematic" =
      some (Preset.mk "Cinematic" "Cinematic style with fades"
        [("fade_in", [("duration", JVal.num 1)])]) ∧
    (applyPreset [("cinematic", Preset.mk "Cinematic" "Cinematic style with fades"
        [("fade_in", [("duration", JVal.num 1)])])] "cinematic"
        (EditorState.mk [("trim", [("start", JVal.num 3)])] "" false)).editConfig =
      [("fade_in", [("duration", JVal.num 1)])] :=
  ⟨rfl, applyPreset_replaces
    [("cinematic", Preset.mk "Cinematic" "Cinematic style with fades"
      [("fade_in", [("duration", JVal.num 1)])])] "cinematic"
    (EditorState.mk [("trim", [("start", JVal.num 3)])] "" false)
    (Preset.mk "Cinematic" "Cinematic style with fades"
      [("fade_in", [("duration", JVal.num 1)])]) rfl⟩

/-- Descriptor returned by `POST /api/video/generate` (spec section 6). -/
structure GenData where
  video_id : String
  status : String
  created_at : String
  video_path : String

/-- Generation-panel state touched by `generateVideo`
(src/unnamed/part_000, VideoGenerator component). -/
structure GenPanelState where
  progress : Rat
  isGenerating : Bool
  generatedVideo : Option GenData

/-- Whitespace stripped by JS `String.prototype.trim` (ASCII part). -/
def jsWhitespace (c : Char) : Bool :=
  c = ' ' || c = '\t' || c = '\n' || c = '\r'

/-- JS `s.trim()`: strip leading and trailing whitespace. -/
def jsTrim (s : String) : String :=
  String.mk (((s.data.dropWhile jsWhitespace).reverse.dropWhile jsWhitespace).reverse)

/-- First phase of `generateVideo` (src/unnamed/part_000 lines 108-140):
`if (!script.trim()) { alert; return; }` issues nothing and changes no
state; otherwise the busy flag is set, progress reset to 0, and a POST to
`/api/video/generate` with body `{script, style, duration, aspect_ratio}`
is issued. -/
def generateVideoStart (st : GenPanelState) (script style : String) (dur : Rat)
    (aspect : String) : GenPanelState × Option (String × JVal) :=
  if jsTrim script = "" then (st, none)
  else ({ st with isGenerating := true, progress := 0 },
    some ("/api/video/generate", JVal.obj
      [("script", JVal.str script), ("style", JVal.str style),
       ("duration", JVal.num dur), ("aspect_ratio", JVal.str aspect)]))

/-- C5: a script whose trimmed form is empty issues no network request and
leaves the whole generation state (progress, busy flag, stored descriptor)
unchanged. -/
theorem generateVideo_empty_script_no_request (st : GenPanelState)
    (script style : String) (dur : Rat) (aspect : String)
    (h : jsTrim script = "") :
    generateVideoStart st script style dur aspect = (st, none) := by
  simp [generateVideoStart, h]

theorem generateVideo_empty_script_no_request_witness :
    (jsTrim "   " = "") ∧
    generateVideoStart (GenPanelState.mk 42 false none) "   " "anime" 5 "landscape" =
      (GenPanelState.mk 42 false none, none) :=
  ⟨by decide,
    generateVideo_empty_script_no_request (GenPanelState.mk 42 false none)
      "   " "anime" 5 "landscape" (by decide)⟩

/-- One tick of the simulated-progress interval (src/unnamed/part_000
lines 118-126): `prev >= 90` pins the value at 90, otherwise
`prev + Math.random() * 10` where `r` is the random draw in [0, 1). -/
def progressTick (prev r : Rat) : Rat :=
  if prev ≥ 90 then 90 else prev + r * 10

/-- The simulated progress after a list of interval ticks with random
draws `rs`, starting from the `setProgress(0)` reset. -/
def simulateProgress (rs : List Rat) : Rat :=
  rs.foldl progressTick 0

/-- Outcome of the generation fetch, as seen by the response handler. -/
inductive GenOutcome where
  | ok (data : GenData)
  | httpError (err : Option String)
  | threw (msg : String)

/-- Response handling of `generateVideo` (src/unnamed/part_000 lines
142-156): on ok, store the descriptor and force progress to 100; on a
non-ok response or a thrown error, alert with the message; the busy flag
is cleared in `finally`. -/
def generateVideoFinish (st : GenPanelState) (outcome : GenOutcome) :
    GenPanelState × Option String :=
  match outcome with
  | .ok data =>
      ({ st with generatedVideo := some data, progress := 100, isGenerating := false },
        none)
  | .httpError e =>
      ({ st with isGenerating := false },
        some ("Error generating video: " ++ jsOr e "Failed to generate video"))
  | .threw m =>
      ({ st with isGenerating := false }, some ("Error generating video: " ++ m))

theorem foldl_progressTick_lt (rs : List Rat) :
    ∀ p : Rat, p < 100 → (∀ r ∈ rs, 0 ≤ r ∧ r < 1) →
      rs.foldl progressTick p < 100 := by
  induction rs with
  | nil =>
      intro p hp _
      simpa using hp
  | cons r rest ih =>
      intro p hp hall
      have hr := hall r (by simp)
      apply ih
      · unfold progressTick
        split
        · norm_num
        · rename_i hlt
          push_neg at hlt
          have : r * 10 < 10 := by linarith [hr.2]
          linarith
      · intro x hx
        exact hall x (by simp [hx])

/-- C9: with every random draw in [0, 1), the simulated progress stays
strictly below 100 however many ticks fire before the response, and the
success branch of `generateVideo` forces progress to exactly 100. -/
theorem generateVideo_progress_capped (rs : List Rat)
    (h : ∀ r ∈ rs, 0 ≤ r ∧ r < 1) (st : GenPanelState) (data : GenData) :
    simulateProgress rs < 100 ∧
    (generateVideoFinish st (GenOutcome.ok data)).1.progress = 100 := by
  constructor
  · exact foldl_progressTick_lt rs 0 (by norm_num) h
  · rfl

theorem generateVideo_progress_capped_witness :
    (∀ r ∈ [(1 : Rat) / 2, 9 / 10, 9 / 10, 0], 0 ≤ r ∧ r < 1) ∧
    simulateProgress [(1 : Rat) / 2, 9 / 10, 9 / 10, 0] < 100 ∧
    (generateVideoFinish (GenPanelState.mk 37 true none)
      (GenOutcome.ok (GenData.mk "id-1" "completed" "2025-01-01" "/v.mp4"))).1.progress
      = 100 :=
  ⟨by intro r hr; fin_cases hr <;> norm_num,
    generateVideo_progress_capped [(1 : Rat) / 2, 9 / 10, 9 / 10, 0]
      (by intro r hr; fin_cases hr <;> norm_num)
      (GenPanelState.mk 37 true none)
      (GenData.mk "id-1" "completed" "2025-01-01" "/v.mp4")⟩

/-- Outcome of the edit fetch in `saveEdits`. -/
inductive EditFetchOutcome where
  | ok (edited_path : String)
  | httpError (err : Option String)
  | threw (msg : String)

/-- `saveEdits` from src/VideoEditor.jsx lines 66-100, as a function of the
prior state, the video path and the fetch outcome. It returns the new
state, the alert message shown (if any), and the argument passed to the
`onSave` callback (if it was invoked). A falsy path alerts and returns
early; on ok the callback gets `data.edited_path`; on a non-ok response or
thrown fetch the error message is alerted; `finally` clears the busy flag;
`setEditConfig` is never called, so the configuration is carried over. -/
def saveEdits (st : EditorState) (videoPath : Option String)
    (outcome : EditFetchOutcome) : EditorState × Option String × Option String :=
  match videoPath with
  | none => (st, some "No video selected for editing", none)
  | some p =>
      if p = "" then (st, some "No video selected for editing", none)
      else
        match outcome with
        | .ok editedPath =>
            ({ st with isEditing := false }, some "Video edited successfully!",
              some editedPath)
        | .httpError e =>
            ({ st with isEditing := false },
              some ("Error editing video: " ++ jsOr e "Failed to edit video"), none)
        | .threw m =>
            ({ st with isEditing := false },
              some ("Error editing video: " ++ m), none)

/-- C6: when `submit()` fails (non-ok response or thrown fetch), the error
message is surfaced in the alert, the `onSave` callback is not invoked and
the edit configuration is left unchanged; on success the returned
`edited_path` is forwarded to the callback. -/
theorem saveEdits_failure_success_spec (st : EditorState) (p : String)
    (hp : p ≠ "") (path : String) (e : Option String) (m : String) :
    (saveEdits st (some p) (EditFetchOutcome.httpError e)).2.1 =
      some ("Error editing video: " ++ jsOr e "Failed to edit video") ∧
    (saveEdits st (some p) (EditFetchOutcome.httpError e)).2.2 = none ∧
    (saveEdits st (some p) (EditFetchOutcome.httpError e)).1.editConfig = st.editConfig ∧
    (saveEdits st (some p) (EditFetchOutcome.threw m)).2.1 =
      some ("Error editing video: " ++ m) ∧
    (saveEdits st (some p) (EditFetchOutcome.threw m)).2.2 = none ∧
    (saveEdits st (some p) (EditFetchOutcome.threw m)).1.editConfig = st.editConfig ∧
    (saveEdits st (some p) (EditFetchOutcome.ok path)).2.2 = some path := by
  simp [saveEdits, hp]

theorem saveEdits_failure_success_spec_witness :
    ("/v.mp4" : String) ≠ "" ∧
    ((saveEdits (EditorState.mk [("trim", [("start", JVal.num 0)])] "" true)
        (some "/v.mp4") (EditFetchOutcome.httpError (some "boom"))).2.1 =
      some ("Error editing video: " ++ jsOr (some "boom") "Failed to edit video") ∧
    (saveEdits (EditorState.mk [("trim", [("start", JVal.num 0)])] "" true)
        (some "/v.mp4") (EditFetchOutcome.httpError (some "boom"))).2.2 = none ∧
    (saveEdits (EditorState.mk [("trim", [("start", JVal.num 0)])] "" true)
        (some "/v.mp4") (EditFetchOutcome.httpError (some "boom"))).1.editConfig =
      (EditorState.mk [("trim", [("start", JVal.num 0)])] "" true).editConfig ∧
    (saveEdits (EditorState.mk [("trim", [("start", JVal.num 0)])] "" true)
        (some "/v.mp4") (EditFetchOutcome.threw "down")).2.1 =
      some ("Error editing video: " ++ "down") ∧
    (saveEdits (EditorState.mk [("trim", [("start", JVal.num 0)])] "" true)
        (some "/v.mp4") (EditFetchOutcome.threw "down")).2.2 = none ∧
    (saveEdits (EditorState.mk [("trim", [("start", JVal.num 0)])] "" true)
        (some "/v.mp4") (EditFetchOutcome.threw "down")).1.editConfig =
      (EditorState.mk [("trim", [("start", JVal.num 0)])] "" true).editConfig ∧
    (saveEdits (EditorState.mk [("trim", [("start", JVal.num 0)])] "" true)
        (some "/v.mp4") (EditFetchOutcome.ok "/v-edited.mp4")).2.2 =
      some "/v-edited.mp4") :=
  ⟨by decide,
    saveEdits_failure_success_spec
      (EditorState.mk [("trim", [("start", JVal.num 0)])] "" true)
      "/v.mp4" (by decide) "/v-edited.mp4" (some "boom") "down"⟩

/-- Upload result returned by `POST /api/azure/upload` (spec section 6). -/
structure UploadData where
  blob_url : String
  cdn_url : Option String
  status : String

/-- Outcome of the upload fetch, as seen by the response handler. -/
inductive UploadOutcome where
  | ok (data : UploadData)
  | httpError (err : Option String)
  | threw (msg : String)

/-- Outcome of the streaming fetch inside `createStreamingEndpoints`. -/
inductive StreamOutcome where
  | ok (streaming : JVal)
  | notOk
  | threw (msg : String)

/-- State of the AzureIntegration panel touched by the upload flow
(src/App.jsx lines 510-516). -/
structure AzureState where
  uploadStatus : Option UploadData
  streamingInfo : Option JVal
  videoAnalysis : Option JVal
  isUploading : Bool
  isAnalyzing : Bool

/-- `createStreamingEndpoints` from src/App.jsx lines 569-589: on an ok
response store `data.streaming`; a non-ok response or a thrown fetch is
swallowed (only logged), changing nothing. -/
def createStreamingEndpoints (st : AzureState) (outcome : StreamOutcome) : AzureState :=
  match outcome with
  | .ok s => { st with streamingInfo := some s }
  | .notOk => st
  | .threw _ => st

/-- `uploadToAzure` from src/App.jsx lines 532-567, as a function of the
prior state, the video path and the two fetch outcomes. Returns the new
state and the alert message shown (if any). A falsy path alerts and
returns early; on ok the upload result is stored and
`createStreamingEndpoints(data.blob_url)` is triggered; on a non-ok
response or thrown fetch the error is alerted; `finally` clears the busy
flag. -/
def uploadToAzure (st : AzureState) (videoPath : Option String)
    (outcome : UploadOutcome) (streamOutcome : StreamOutcome) :
    AzureState × Option String :=
  match videoPath with
  | none => (st, some "No video selected for upload")
  | some p =>
      if p = "" then (st, some "No video selected for upload")
      else
        match outcome with
        | .ok data =>
            let st1 := { st with isUploading := true, uploadStatus := some data }
            let st2 := createStreamingEndpoints st1 streamOutcome
            ({ st2 with isUploading := false }, none)
        | .httpError e =>
            ({ st with isUploading := false },
              some ("Error uploading to Azure: " ++ jsOr e "Failed to upload to Azure"))
        | .threw m =>
            ({ st with isUploading := false },
              some ("Error uploading to Azure: " ++ m))

/-- C7: whatever the prior panel state, when the upload call fails (non-ok
response or thrown fetch error) the `streamingInfo` and `videoAnalysis`
fields hold exactly the values they held before the call. -/
theorem uploadToAzure_failure_frame (st : AzureState) (videoPath : Option String)
    (e : Option String) (m : String) (streamOutcome : StreamOutcome) :
    (uploadToAzure st videoPath (UploadOutcome.httpError e) streamOutcome).1.streamingInfo
      = st.streamingInfo ∧
    (uploadToAzure st videoPath (UploadOutcome.httpError e) streamOutcome).1.videoAnalysis
      = st.videoAnalysis ∧
    (uploadToAzure st videoPath (UploadOutcome.threw m) streamOutcome).1.streamingInfo
      = st.streamingInfo ∧
    (uploadToAzure st videoPath (UploadOutcome.threw m) streamOutcome).1.videoAnalysis
      = st.videoAnalysis := by
  cases videoPath with
  | none => simp [uploadToAzure]
  | some p =>
      by_cases hp : p = "" <;> simp [uploadToAzure, hp]

/-- The three visual-effect switches (src/VideoEditor.jsx lines 250-282). -/
inductive EffectToggle where
  | bw
  | speedUp
  | slowMotion

/-- The effect identifier each switch writes. -/
def effectName : EffectToggle → String
  | .bw => "black_and_white"
  | .speedUp => "speed_up"
  | .slowMotion => "slow_motion"

/-- An `onCheckedChange` handler of a visual-effect switch: only when
`checked` is true it runs
`updateEditConfig('effects', 'list', [<effect>])`; there is no else
branch, so unchecking changes nothing. -/
def effectSwitch (cfg : EditConfig) (e : EffectToggle) (checked : Bool) : EditConfig :=
  if checked then
    updateEditConfig cfg "effects" "list" (JVal.arr [JVal.str (effectName e)])
  else cfg

/-- The value stored at `effects.list` in a configuration. -/
def effectsList (cfg : EditConfig) : Option JVal :=
  getKey (subMap cfg "effects") "list"

/-- `effects.list` is absent or a single-element effect list. -/
def atMostOneEffect (cfg : EditConfig) : Prop :=
  effectsList cfg = none ∨ ∃ s, effectsList cfg = some (JVal.arr [JVal.str s])

theorem effectsList_updateEditConfig (cfg : EditConfig) (v : JVal) :
    effectsList (updateEditConfig cfg "effects" "list" v) = some v := by
  simp [effectsList, subMap_updateEditConfig_self, getKey_setKey_self]

theorem effectSwitch_foldl_atMostOne (evs : List (EffectToggle × Bool)) :
    ∀ cfg : EditConfig, atMostOneEffect cfg →
      atMostOneEffect (evs.foldl (fun c q => effectSwitch c q.1 q.2) cfg) := by
  induction evs with
  | nil =>
      intro cfg h
      simpa using h
  | cons q qs ih =>
      intro cfg h
      simp only [List.foldl_cons]
      apply ih
      cases hb : q.2 with
      | false => simpa [effectSwitch, hb] using h
      | true =>
          right
          exact ⟨effectName q.1, by simp [effectSwitch, hb, effectsList_updateEditConfig]⟩

/-- C10: toggling a switch off leaves the configuration unchanged (the
previously stored effect is not removed); toggling a switch on writes
exactly the single-element list of its own effect, replacing whatever
list was there before (never appending); hence along any sequence of
switch toggles `effects.list` always holds at most one effect identifier. -/
theorem effects_switch_spec (cfg : EditConfig) (e : EffectToggle)
    (evs : List (EffectToggle × Bool)) (h : atMostOneEffect cfg) :
    effectSwitch cfg e false = cfg ∧
    effectsList (effectSwitch cfg e true) = some (JVal.arr [JVal.str (effectName e)]) ∧
    atMostOneEffect (evs.foldl (fun c q => effectSwitch c q.1 q.2) cfg) := by
  refine ⟨rfl, ?_, effectSwitch_foldl_atMostOne evs cfg h⟩
  simp [effectSwitch, effectsList_updateEditConfig]

theorem effects_switch_spec_witness :
    atMostOneEffect [] ∧
    (effectSwitch [] EffectToggle.bw false = [] ∧
    effectsList (effectSwitch [] EffectToggle.bw true) =
      some (JVal.arr [JVal.str "black_and_white"]) ∧
    atMostOneEffect ([(EffectToggle.bw, true), (EffectToggle.speedUp, true),
        (EffectToggle.speedUp, false)].foldl
      (fun c q => effectSwitch c q.1 q.2) [])) :=
  ⟨Or.inl rfl,
    effects_switch_spec [] EffectToggle.bw
      [(EffectToggle.bw, true), (EffectToggle.speedUp, true),
        (EffectToggle.speedUp, false)] (Or.inl rfl)⟩


/-- JS truthiness of an optional string (`null`/`undefined` and `""` falsy). -/
def truthyStr (o : Option String) : Bool :=
  match o with
  | none => false
  | some s => if s = "" then false else true

/-- JS `x ? x : old` merge used by `runCompleteWorkflow` when copying
workflow results into the panel fields. -/
def mergeField (new old : Option String) : Option String :=
  match new with
  | some v => some v
  | none => old

/-- Event-level state of the AzureIntegration panel, tracking the busy
flags, the stored results, and how many requests of each kind are
currently in flight. -/
structure AzPanel where
  configured : Bool
  videoPath : Option String
  isUploading : Bool
  isAnalyzing : Bool
  uploadDone : Option String
  streamingOut : Option String
  analysisOut : Option String
  uploadInFlight : Nat
  streamInFlight : Nat
  analyzeInFlight : Nat
  workflowInFlight : Nat
deriving DecidableEq

/-- Events of the panel: button clicks (guarded exactly by the `disabled`
conditions of the three action buttons, src/App.jsx lines 735-780, plus
the handlers' own early-return guards) and arrivals of responses to
requests that are in flight. -/
inductive AzEvent where
  | clickUpload
  | uploadRespOk (blobUrl : String)
  | uploadRespErr
  | streamRespOk (s : String)
  | streamRespErr
  | clickAnalyze
  | analyzeRespOk (a : String)
  | analyzeRespErr
  | clickWorkflow
  | workflowRespOk (up : Option String) (sInfo : Option String) (an : Option String)
  | workflowRespErr

/-- One step of the panel. `none` means the event cannot fire (its button
is disabled, or no such request is outstanding). Clicking Upload starts
the upload fetch and sets `isUploading`; an ok upload response stores the
result, fires the streaming fetch (`createStreamingEndpoints`, not
awaited) and clears `isUploading` in `finally` — so the streaming request
outlives the busy flag. Analyze is gated only on `isAnalyzing` and a
stored upload result. The Complete Workflow button shares `isUploading`. -/
def azStep (st : AzPanel) (ev : AzEvent) : Option AzPanel :=
  match ev with
  | .clickUpload =>
      if st.isUploading || !truthyStr st.videoPath || !st.configured then none
      else some { st with isUploading := true, uploadInFlight := st.uploadInFlight + 1 }
  | .uploadRespOk blobUrl =>
      if st.uploadInFlight = 0 then none
      else some { st with
        uploadInFlight := st.uploadInFlight - 1,
        uploadDone := some blobUrl,
        streamInFlight := st.streamInFlight + 1,
        isUploading := false }
  | .uploadRespErr =>
      if st.uploadInFlight = 0 then none
      else some { st with uploadInFlight := st.uploadInFlight - 1, isUploading := false }
  | .streamRespOk s =>
      if st.streamInFlight = 0 then none
      else some { st with
        streamInFlight := st.streamInFlight - 1,
        streamingOut := some s }
  | .streamRespErr =>
      if st.streamInFlight = 0 then none
      else some { st with streamInFlight := st.streamInFlight - 1 }
  | .clickAnalyze =>
      if st.isAnalyzing || !truthyStr st.uploadDone then none
      else some { st with
        isAnalyzing := true,
        analyzeInFlight := st.analyzeInFlight + 1 }
  | .analyzeRespOk a =>
      if st.analyzeInFlight = 0 then none
      else some { st with
        analyzeInFlight := st.analyzeInFlight - 1,
        analysisOut := some a,
        isAnalyzing := false }
  | .analyzeRespErr =>
      if st.analyzeInFlight = 0 then none
      else some { st with
        analyzeInFlight := st.analyzeInFlight - 1,
        isAnalyzing := false }
  | .clickWorkflow =>
      if st.isUploading || !truthyStr st.videoPath || !st.configured then none
      else some { st with
        isUploading := true,
        workflowInFlight := st.workflowInFlight + 1 }
  | .workflowRespOk up sInfo an =>
      if st.workflowInFlight = 0 then none
      else some { st with
        workflowInFlight := st.workflowInFlight - 1,
        uploadDone := mergeField up st.uploadDone,
        streamingOut := mergeField sInfo st.streamingOut,
        analysisOut := mergeField an st.analysisOut,
        isUploading := false }
  | .workflowRespErr =>
      if st.workflowInFlight = 0 then none
      else some { st with
        workflowInFlight := st.workflowInFlight - 1,
        isUploading := false }

/-- Run a sequence of panel events; fails if any event cannot fire. -/
def runAz (st : AzPanel) : List AzEvent → Option AzPanel
  | [] => some st
  | ev :: evs =>
      match azStep st ev with
      | some st2 => runAz st2 evs
      | none => none

/-- Initial panel state: Azure configured, a video selected, nothing busy,
nothing in flight. -/
def initAzPanel : AzPanel :=
  { configured := true, videoPath := some "video.mp4", isUploading := false,
    isAnalyzing := false, uploadDone := none, streamingOut := none,
    analysisOut := none, uploadInFlight := 0, streamInFlight := 0,
    analyzeInFlight := 0, workflowInFlight := 0 }

/-- Total number of requests of this panel currently in flight. -/
def inFlight (st : AzPanel) : Nat :=
  st.uploadInFlight + st.streamInFlight + st.analyzeInFlight + st.workflowInFlight

/-- C8 counterexample: it is not true that every reachable panel state has
at most one in-flight request. Concretely, after clicking Upload, the
upload response arriving ok (which fires the un-awaited streaming request
and re-enables the buttons), and then clicking Analyze, the streaming
request and the analyze request are both in flight. -/
theorem azure_panel_not_single_flight :
    ¬ ∀ (evs : List AzEvent) (st : AzPanel),
        runAz initAzPanel evs = some st → inFlight st ≤ 1 := by
  intro h
  have h2 := h
    [AzEvent.clickUpload, AzEvent.uploadRespOk "https://blob/u", AzEvent.clickAnalyze]
    { initAzPanel with
      isAnalyzing := true,
      uploadDone := some "https://blob/u",
      streamInFlight := 1,
      analyzeInFlight := 1 }
    (by decide)
  exact absurd h2 (by decide)

/-- Per-action busy-flag invariant: upload and workflow share the
`isUploading` flag; analyze has its own flag. -/
def busyInv (st : AzPanel) : Prop :=
  (st.isUploading = false → st.uploadInFlight + st.workflowInFlight = 0) ∧
  st.uploadInFlight + st.workflowInFlight ≤ 1 ∧
  (st.isAnalyzing = false → st.analyzeInFlight = 0) ∧
  st.analyzeInFlight ≤ 1

theorem azStep_preserves_busyInv (st st2 : AzPanel) (ev : AzEvent)
    (hinv : busyInv st) (h : azStep st ev = some st2) : busyInv st2 := by
  obtain ⟨h1, h2, h3, h4⟩ := hinv
  cases ev with
  | clickUpload =>
      simp only [azStep] at h
      split at h
      · exact Option.noConfusion h
      · rename_i hguard
        injection h with h
        subst h
        have hu : st.isUploading = false := by
          cases hb : st.isUploading with
          | false => rfl
          | true => simp [hb] at hguard
        have h0 := h1 hu
        unfold busyInv
        dsimp only
        refine ⟨?_, ?_, ?_, ?_⟩
        · intro hx
          exact nomatch hx
        · omega
        · exact h3
        · exact h4
  | uploadRespOk blobUrl =>
      simp only [azStep] at h
      split at h
      · exact Option.noConfusion h
      · rename_i hn
        injection h with h
        subst h
        unfold busyInv
        dsimp only
        refine ⟨?_, ?_, ?_, ?_⟩
        · intro _
          omega
        · omega
        · exact h3
        · exact h4
  | uploadRespErr =>
      simp only [azStep] at h
      split at h
      · exact Option.noConfusion h
      · rename_i hn
        injection h with h
        subst h
        unfold busyInv
        dsimp only
        refine ⟨?_, ?_, ?_, ?_⟩
        · intro _
          omega
        · omega
        · exact h3
        · exact h4
  | streamRespOk s =>
      simp only [azStep] at h
      split at h
      · exact Option.noConfusion h
      · injection h with h
        subst h
        unfold busyInv
        dsimp only
        exact ⟨h1, h2, h3, h4⟩
  | streamRespErr =>
      simp only [azStep] at h
      split at h
      · exact Option.noConfusion h
      · injection h with h
        subst h
        unfold busyInv
        dsimp only
        exact ⟨h1, h2, h3, h4⟩
  | clickAnalyze =>
      simp only [azStep] at h
      split at h
      · exact Option.noConfusion h
      · rename_i hguard
        injection h with h
        subst h
        have ha : st.isAnalyzing = false := by
          cases hb : st.isAnalyzing with
          | false => rfl
          | true => simp [hb] at hguard
        have h0 := h3 ha
        unfold busyInv
        dsimp only
        refine ⟨?_, ?_, ?_, ?_⟩
        · exact h1
        · exact h2
        · intro hx
          exact nomatch hx
        · omega
  | analyzeRespOk a =>
      simp only [azStep] at h
      split at h
      · exact Option.noConfusion h
      · rename_i hn
        injection h with h
        subst h
        unfold busyInv
        dsimp only
        refine ⟨?_, ?_, ?_, ?_⟩
        · exact h1
        · exact h2
        · intro _
          omega
        · omega
  | analyzeRespErr =>
      simp only [azStep] at h
      split at h
      · exact Option.noConfusion h
      · rename_i hn
        injection h with h
        subst h
        unfold busyInv
        dsimp only
        refine ⟨?_, ?_, ?_, ?_⟩
        · exact h1
        · exact h2
        · intro _
          omega
        · omega
  | clickWorkflow =>
      simp only [azStep] at h
      split at h
      · exact Option.noConfusion h
      · rename_i hguard
        injection h with h
        subst h
        have hu : st.isUploading = false := by
          cases hb : st.isUploading with
          | false => rfl
          | true => simp [hb] at hguard
        have h0 := h1 hu
        unfold busyInv
        dsimp only
        refine ⟨?_, ?_, ?_, ?_⟩
        · intro hx
          exact nomatch hx
        · omega
        · exact h3
        · exact h4
  | workflowRespOk up sInfo an =>
      simp only [azStep] at h
      split at h
      · exact Option.noConfusion h
      · rename_i hn
        injection h with h
        subst h
        unfold busyInv
        dsimp only
        refine ⟨?_, ?_, ?_, ?_⟩
        · intro _
          omega
        · omega
        · exact h3
        · exact h4
  | workflowRespErr =>
      simp only [azStep] at h
      split at h
      · exact Option.noConfusion h
      · rename_i hn
        injection h with h
        subst h
        unfold busyInv
        dsimp only
        refine ⟨?_, ?_, ?_, ?_⟩
        · intro _
          omega
        · omega
        · exact h3
        · exact h4

theorem runAz_preserves_busyInv (evs : List AzEvent) :
    ∀ st st2 : AzPanel, busyInv st → runAz st evs = some st2 → busyInv st2 := by
  induction evs with
  | nil =>
      intro st st2 hinv h
      simp only [runAz, Option.some.injEq] at h
      subst h
      exact hinv
  | cons ev evs ih =>
      intro st st2 hinv h
      simp only [runAz] at h
      cases hs : azStep st ev with
      | none => rw [hs] at h; exact Option.noConfusion h
      | some stm =>
          rw [hs] at h
          exact ih stm st2 (azStep_preserves_busyInv st stm ev hinv hs) h

/-- C8 amended: the boolean busy flags give only per-action exclusivity,
not per-panel exclusivity. In every reachable state of the panel, at most
one upload-or-workflow request (they share the `isUploading` flag that
disables both buttons) and at most one analyze request are in flight; the
per-panel bound fails (see the counterexample: the streaming request
fired by a finished upload runs concurrently with an analyze request). -/
theorem azure_panel_per_action_exclusive (evs : List AzEvent) (st : AzPanel)
    (h : runAz initAzPanel evs = some st) :
    st.uploadInFlight + st.workflowInFlight ≤ 1 ∧ st.analyzeInFlight ≤ 1 := by
  have hinit : busyInv initAzPanel := by
    refine ⟨fun _ => rfl, ?_, fun _ => rfl, ?_⟩ <;> simp [initAzPanel]
  have hfin := runAz_preserves_busyInv evs initAzPanel st hinit h
  exact ⟨hfin.2.1, hfin.2.2.2⟩

theorem azure_panel_per_action_exclusive_witness :
    runAz initAzPanel [AzEvent.clickUpload] = some { initAzPanel with
      isUploading := true,
      uploadInFlight := 1 } ∧
    ({ initAzPanel with
      isUploading := true,
      uploadInFlight := 1 } : AzPanel).uploadInFlight +
      ({ initAzPanel with
        isUploading := true,
        uploadInFlight := 1 } : AzPanel).workflowInFlight ≤ 1 ∧
    ({ initAzPanel with
      isUploading := true,
      uploadInFlight := 1 } : AzPanel).analyzeInFlight ≤ 1 :=
  ⟨by decide, azure_panel_per_action_exclusive [AzEvent.clickUpload]
    { initAzPanel with
      isUploading := true,
      uploadInFlight := 1 } (by decide)⟩
